import Mathlib

/-!
Verification development for the café ordering web client.

This file gives a shallow embedding, in Lean, of the order submission and
order management workflows of the client: the pure validation functions,
the construction of the outbound order payload, the submit handler of the
order modal, the success popup rendering, the popup dismissal handler, the
backend-to-client order transformation, the order-list loader with its
page fallback, the optimistic status-update handler of the management
table, and the order-placement API function with its availability
pre-check.  Effectful TypeScript handlers are embedded as pure functions
from an explicit state together with an environment describing the
backend responses; the side effects they perform (toasts, network calls,
cart clearing) are returned as data.
-/

namespace Zish

/-! ### JavaScript string primitives -/

/-- Embedding of JavaScript `s.trim()`: remove leading and trailing
whitespace. -/
def jsTrim (s : String) : String :=
  String.mk (((s.toList.dropWhile Char.isWhitespace).reverse.dropWhile Char.isWhitespace).reverse)

/-- The digit-only projection of a string: the characters kept by the
JavaScript replacement `s.replace(/\D/g, "")`. -/
def digitsOnly (s : String) : List Char := s.toList.filter Char.isDigit

/-- JavaScript `a || b` specialised to strings: the empty string is the
only falsy string. -/
def jsOrString (a b : String) : String := if a = "" then b else a

/-- JavaScript `x || b` where `x` is a possibly-undefined string
(`none` models `undefined`/`null`). -/
def jsOrOptString (x : Option String) (b : String) : String :=
  match x with
  | none => b
  | some s => if s = "" then b else s

/-- JavaScript `x || undefined` on a possibly-null string: both `null`
and the empty string collapse to `undefined`. -/
def jsOrUndefined (x : Option String) : Option String :=
  match x with
  | none => none
  | some s => if s = "" then none else some s

/-- Truthiness of a possibly-undefined string in a JavaScript
conditional: defined and non-empty. -/
def truthyStr (x : Option String) : Bool :=
  match x with
  | none => false
  | some s => s != ""

/-- Truthiness of a possibly-undefined number: defined and non-zero. -/
def truthyNum (x : Option Rat) : Bool :=
  match x with
  | none => false
  | some q => q != 0

/-- Substring test, embedding JavaScript `s.includes(pat)`. -/
def jsIncludes (s pat : String) : Bool := decide (pat.toList <:+: s.toList)

/-- Parse the maximal leading run of decimal digits, as JavaScript
`parseInt` does after sign handling; `none` models `NaN`. -/
def parseDigits (cs : List Char) : Option Nat :=
  let ds := cs.takeWhile Char.isDigit
  if ds.isEmpty then none
  else some (ds.foldl (fun a c => a * 10 + (c.toNat - 48)) 0)

/-- Embedding of JavaScript `parseInt(s)` with the default radix:
skip leading whitespace, honour an optional sign, read leading decimal
digits; `none` models `NaN`. -/
def jsParseInt (s : String) : Option Int :=
  match s.toList.dropWhile Char.isWhitespace with
  | [] => none
  | c :: rest =>
    if c = '-' then (parseDigits rest).map (fun n => -(n : Int))
    else if c = '+' then (parseDigits rest).map (fun n => (n : Int))
    else (parseDigits (c :: rest)).map (fun n => (n : Int))

/-- Decimal digits of a natural number with an explicit fuel argument,
so that evaluation is by structural recursion. -/
def natDigitsAux : Nat → Nat → List Char
  | 0, _ => []
  | fuel + 1, n =>
    if n < 10 then [Nat.digitChar n]
    else natDigitsAux fuel (n / 10) ++ [Nat.digitChar (n % 10)]

/-- Embedding of JavaScript `n.toString()` for a non-negative integer
order id. -/
def jsNatToString (n : Nat) : String := String.mk (natDigitsAux (n + 1) n)

/-! ### Validation functions (order modal) -/

/-- `validateEmail` from the order modal: the empty/whitespace-only
string is accepted (the field is optional); otherwise the value must
match the regular expression `^[^\s@]+@[^\s@]+\.[^\s@]+$`.  The regex
test is embedded as: no whitespace anywhere, exactly one `@` splitting
the string into a non-empty local part and a domain that has a dot with
at least one character on each side. -/
def emailRegexTest (s : String) : Bool :=
  match s.splitOn "@" with
  | [l, d] =>
    l != "" && d != "" &&
    (s.toList.all fun c => !c.isWhitespace) &&
    ((List.range d.toList.length).any fun i =>
      d.toList.getD i ' ' == '.' && decide (0 < i) && decide (i + 1 < d.toList.length))
  | _ => false

/-- `validateEmail` returns `none` for a valid (or blank) input and a
human-readable error string otherwise. -/
def validateEmail (email : String) : Option String :=
  if jsTrim email = "" then none
  else if emailRegexTest email then none
  else some "Please enter a valid email address"

/-- `validatePhoneNumber` from the order modal: blank input is valid;
otherwise the digit-only projection must have between 10 and 15
characters. -/
def validatePhoneNumber (phone : String) : Option String :=
  if jsTrim phone = "" then none
  else
    let cleanPhone := digitsOnly phone
    if cleanPhone.length < 10 then some "Phone number must be at least 10 digits"
    else if cleanPhone.length > 15 then some "Phone number cannot exceed 15 digits"
    else none

/-- The name check performed both by `handleNameChange` and by
`validateForm`: required, and at least 2 characters after trimming. -/
def nameCheck (value : String) : Option String :=
  if jsTrim value = "" then some "Customer name is required"
  else if (jsTrim value).length < 2 then some "Name must be at least 2 characters"
  else none

/-! ### Data model -/

/-- A runtime catalog identifier on a cart line: the TypeScript interface
declares it a string, but at runtime it arrives either as a number or as
a string, which the submit handler distinguishes with `typeof`. -/
inductive JsId where
  | num (n : Int)
  | str (s : String)
deriving DecidableEq

/-- A cart line item as supplied to the order modal. -/
structure CartItem where
  id : JsId
  cartId : String
  name : String
  price : Rat
  image : String
  quantity : Nat
  specialInstructions : Option String
deriving DecidableEq

/-- One item of the outbound order payload.  `menuItemId` is `none` when
`parseInt` produced `NaN`.  `specialInstructions` is an optional field of
the TypeScript `OrderSubmission` type, so `none` models the field being
omitted from the payload. -/
structure SubmissionItem where
  menuItemId : Option Int
  quantity : Nat
  specialInstructions : Option String
deriving DecidableEq

/-- The outbound `OrderSubmission` payload.  Optional TypeScript fields
are `Option`s; `none` models an omitted field. -/
structure OrderSubmission where
  customerName : String
  customerPhone : String
  customerEmail : Option String
  items : List SubmissionItem
  paymentMethod : Option String
  specialInstructions : Option String
  deliveryAddress : Option String
deriving DecidableEq

/-- A purchased line within a confirmed order (client view model). -/
structure OrderItem where
  id : Nat
  itemName : String
  itemPrice : Rat
  quantity : Nat
  specialInstructions : Option String
  subtotal : Rat
deriving DecidableEq

/-- The client view model of a confirmed order. -/
structure Order where
  id : Nat
  customerName : String
  customerPhone : String
  customerEmail : Option String
  totalAmount : Rat
  orderStatus : String
  paymentStatus : String
  paymentMethod : Option String
  specialInstructions : Option String
  deliveryAddress : Option String
  orderDate : String
  estimatedDeliveryTime : Option String
  actualDeliveryTime : Option String
  cancelledAt : Option String
  cancelledReason : Option String
  cancelledBy : Option String
  items : List OrderItem
  createdAt : String
  updatedAt : String
deriving DecidableEq

/-- A backend order item record (snake_case wire format; `none` models a
JSON `null`). -/
structure BackendOrderItem where
  id : Nat
  item_name : String
  item_price : Rat
  quantity : Nat
  special_instructions : Option String
  subtotal : Rat
deriving DecidableEq

/-- A backend order record (snake_case wire format). -/
structure BackendOrder where
  id : Nat
  customer_name : String
  customer_phone : String
  customer_email : Option String
  total_amount : Rat
  order_status : String
  payment_status : String
  payment_method : Option String
  special_instructions : Option String
  delivery_address : Option String
  order_date : String
  estimated_delivery_time : Option String
  actual_delivery_time : Option String
  cancelled_at : Option String
  cancelled_reason : Option String
  cancelled_by : Option String
  items : List BackendOrderItem
  created_at : String
  updated_at : String
deriving DecidableEq

/-- `transformOrder` from the order API client: rename backend fields to
the client view model, collapsing falsy optional strings to `undefined`
via `x || undefined`. -/
def transformOrder (backendOrder : BackendOrder) : Order :=
  { id := backendOrder.id
    customerName := backendOrder.customer_name
    customerPhone := backendOrder.customer_phone
    customerEmail := jsOrUndefined backendOrder.customer_email
    totalAmount := backendOrder.total_amount
    orderStatus := backendOrder.order_status
    paymentStatus := backendOrder.payment_status
    paymentMethod := jsOrUndefined backendOrder.payment_method
    specialInstructions := jsOrUndefined backendOrder.special_instructions
    deliveryAddress := jsOrUndefined backendOrder.delivery_address
    orderDate := backendOrder.order_date
    estimatedDeliveryTime := jsOrUndefined backendOrder.estimated_delivery_time
    actualDeliveryTime := jsOrUndefined backendOrder.actual_delivery_time
    cancelledAt := jsOrUndefined backendOrder.cancelled_at
    cancelledReason := jsOrUndefined backendOrder.cancelled_reason
    cancelledBy := jsOrUndefined backendOrder.cancelled_by
    items := backendOrder.items.map (fun item =>
      { id := item.id
        itemName := item.item_name
        itemPrice := item.item_price
        quantity := item.quantity
        specialInstructions := jsOrUndefined item.special_instructions
        subtotal := item.subtotal })
    createdAt := backendOrder.created_at
    updatedAt := backendOrder.updated_at }

/-! ### Order modal state and submit workflow -/

/-- The confirmation payload captured after a successful submission
(`popupData` in the modal). -/
structure PopupData where
  id : String
  totalAmount : Rat
deriving DecidableEq

/-- The React state of the order modal. -/
structure ModalState where
  customerName : String
  phoneNumber : String
  customerEmail : String
  generalInstructions : String
  isSubmitting : Bool
  emailError : Option String
  phoneError : Option String
  nameError : Option String
  showPopup : Bool
  popupData : Option PopupData
deriving DecidableEq

/-- A toast notification. -/
structure Toast where
  title : String
  description : String
deriving DecidableEq

/-- A thrown JavaScript value: either an `Error` instance carrying a
message, or some non-`Error` value. -/
inductive JsError where
  | errObj (message : String)
  | nonError
deriving DecidableEq

/-- `validateForm` from the order modal: re-run all three validators on
the current field values, write the email and phone results into the
error states, write the name error only when the name is invalid, and
report whether every check passed. -/
def validateForm (s : ModalState) : ModalState × Bool :=
  let nameErr := nameCheck s.customerName
  let s1 :=
    match nameErr with
    | some m => { s with nameError := some m }
    | none => s
  let emailErr := validateEmail s.customerEmail
  let s2 := { s1 with emailError := emailErr }
  let phoneErr := validatePhoneNumber s.phoneNumber
  let s3 := { s2 with phoneError := phoneErr }
  (s3, nameErr.isNone && emailErr.isNone && phoneErr.isNone)

/-- `resetForm` from the order modal: blank every field and clear every
validation error; the popup state is untouched. -/
def resetFormState (s : ModalState) : ModalState :=
  { s with
    customerName := ""
    phoneNumber := ""
    customerEmail := ""
    generalInstructions := ""
    emailError := none
    phoneError := none
    nameError := none }

/-- The catalog-id coercion in the submit handler:
`typeof item.id === "string" ? parseInt(item.id) : item.id`. -/
def coerceMenuItemId : JsId → Option Int
  | .str s => jsParseInt s
  | .num n => some n

/-- Construction of the outbound `OrderSubmission` in `handleSubmit`:
trim the four text fields, fall back to the literal "Not provided" for a
blank phone or email, default each item's instructions to the empty
string, and coerce catalog ids to numbers.  Fields never mentioned by
the object literal (`paymentMethod`, `deliveryAddress`) are omitted. -/
def buildOrderData (s : ModalState) (cart : List CartItem) : OrderSubmission :=
  { customerName := jsTrim s.customerName
    customerPhone := jsOrString (jsTrim s.phoneNumber) "Not provided"
    customerEmail := some (jsOrString (jsTrim s.customerEmail) "Not provided")
    items := cart.map (fun item =>
      { menuItemId := coerceMenuItemId item.id
        quantity := item.quantity
        specialInstructions := some (jsOrOptString item.specialInstructions "") })
    paymentMethod := none
    specialInstructions := some (jsOrString (jsTrim s.generalInstructions) "")
    deliveryAddress := none }

/-- The user-facing error message computed in the catch branch of
`handleSubmit`: a generic message for a non-`Error` throw, a targeted
refresh-your-cart message when the error message contains
"not available", and otherwise the server message verbatim. -/
def submitErrorMessage : JsError → String
  | .nonError => "Failed to place order. Please try again."
  | .errObj m =>
    if jsIncludes m "not available" then
      "Some items in your cart are no longer available. Please refresh your cart and try again."
    else m

/-- The observable outcome of one run of `handleSubmit`: the final modal
state, the toasts shown, the payload sent to `placeOrder` (`none` when
no network call was made), and whether the cart-clear and modal-close
capabilities were invoked. -/
structure SubmitOutcome where
  state : ModalState
  toasts : List Toast
  request : Option OrderSubmission
  cartCleared : Bool
  closedModal : Bool
deriving DecidableEq

/-- `handleSubmit` from the order modal, as a function of the state, the
cart, and the outcome the order-placement call would produce.  The
validation gate and the empty-cart gate abort before any network call;
on success the confirmation payload is captured, the popup is shown and
the form is reset, with the cart deliberately left alone; on failure the
form is left as the validation pass wrote it and a toast is shown; the
submitting flag ends false in every outcome. -/
def handleSubmit (s : ModalState) (cart : List CartItem)
    (result : Except JsError Order) : SubmitOutcome :=
  let (s1, ok) := validateForm s
  if !ok then
    { state := s1
      toasts := [⟨"Validation Error", "Please fix the errors below before submitting"⟩]
      request := none
      cartCleared := false
      closedModal := false }
  else if cart.length = 0 then
    { state := s1
      toasts := [⟨"Empty Cart", "Please add items to your cart before placing an order"⟩]
      request := none
      cartCleared := false
      closedModal := false }
  else
    let s2 := { s1 with isSubmitting := true }
    let orderData := buildOrderData s2 cart
    match result with
    | .ok response =>
      let s3 := { s2 with
        popupData := some ⟨jsNatToString response.id, response.totalAmount⟩
        showPopup := true }
      let s4 := resetFormState s3
      { state := { s4 with isSubmitting := false }
        toasts := []
        request := some orderData
        cartCleared := false
        closedModal := false }
    | .error e =>
      { state := { s2 with isSubmitting := false }
        toasts := [⟨"Order Failed", submitErrorMessage e⟩]
        request := some orderData
        cartCleared := false
        closedModal := false }

/-- The outcome of a close handler: the new modal state and whether the
cart-clear and modal-close capabilities were invoked. -/
structure CloseOutcome where
  state : ModalState
  cartCleared : Bool
  closedModal : Bool
deriving DecidableEq

/-- `handlePopupClose` from the order modal: hide the popup, drop the
confirmation payload, clear the cart, and close the parent modal. -/
def handlePopupClose (s : ModalState) : CloseOutcome :=
  { state := { s with showPopup := false, popupData := none }
    cartCleared := true
    closedModal := true }

/-- `handleClose` from the order modal (cancellation without
submitting): reset the form and close; the cart is not cleared. -/
def handleClose (s : ModalState) : CloseOutcome :=
  { state := resetFormState s
    cartCleared := false
    closedModal := true }

/-- What the success popup renders: whether the order-info box is shown,
and the order-id and total-amount lines inside it (`none` when the line
is not rendered). -/
structure PopupRender where
  boxShown : Bool
  orderIdLine : Option String
  amountLine : Option Rat
deriving DecidableEq

/-- The rendering of `OrderSuccessPopup`: nothing when `open` is false;
otherwise the info box is shown when the order id or the total amount is
truthy, the id line when the id is truthy, and the amount line when the
amount is defined. -/
def orderSuccessPopupView (popupOpen : Bool) (orderId : Option String)
    (totalAmount : Option Rat) : Option PopupRender :=
  if !popupOpen then none
  else
    let box := truthyStr orderId || truthyNum totalAmount
    some { boxShown := box
           orderIdLine := if box && truthyStr orderId then orderId else none
           amountLine := if box && totalAmount.isSome then totalAmount else none }

/-- The popup as instantiated by the order modal, fed from `showPopup`
and `popupData`. -/
def modalPopupView (s : ModalState) : Option PopupRender :=
  orderSuccessPopupView s.showPopup (s.popupData.map PopupData.id)
    (s.popupData.map PopupData.totalAmount)

/-- A concrete confirmed order used to exercise the success path. -/
def demoOrder : Order :=
  { id := 42
    customerName := "Ada Lovelace"
    customerPhone := "Not provided"
    customerEmail := none
    totalAmount := (150.5 : Rat)
    orderStatus := "pending"
    paymentStatus := "pending"
    paymentMethod := none
    specialInstructions := none
    deliveryAddress := none
    orderDate := "2026-10-11"
    estimatedDeliveryTime := none
    actualDeliveryTime := none
    cancelledAt := none
    cancelledReason := none
    cancelledBy := none
    items := []
    createdAt := ""
    updatedAt := "" }

/-! ### The outbound payload (claim C3) -/

/-- The base-10 value of a list of digit characters. -/
def decimalValue (ds : List Char) : Nat :=
  ds.foldl (fun a c => a * 10 + (c.toNat - 48)) 0

/-- Concrete state and cart refuting claim C3 as stated: the
general-instructions field is blank and the first cart line has no
per-item note, yet both are transmitted as empty strings instead of
being omitted, and the second line's note is transmitted untrimmed. -/
def c3State : ModalState :=
  ⟨"Ada Lovelace", "", "", "", false, none, none, none, false, none⟩

/-- The cart used to refute claim C3 as stated. -/
def c3Cart : List CartItem :=
  [⟨JsId.str "7", "c1", "Masala Chai", 20, "", 2, none⟩,
   ⟨JsId.num 3, "c2", "Espresso", 90, "", 1, some " extra hot "⟩]

/-! ### Order management workflow -/

/-- The React state of the order management table. -/
structure MgmtState where
  orders : List Order
  loading : Bool
  error : Option String
  searchTerm : String
  statusFilter : String
  paymentFilter : String
  currentPage : Nat
  totalPages : Nat
  totalCount : Nat
  updatingOrders : List Nat
deriving DecidableEq

/-- JavaScript `Set.add`: append when not already present. -/
def setAdd (l : List Nat) (x : Nat) : List Nat :=
  if l.contains x then l else l ++ [x]

/-- JavaScript `Set.delete`: remove every occurrence. -/
def setDelete (l : List Nat) (x : Nat) : List Nat :=
  l.filter (fun y => y != x)

/-- The query parameters `loadOrders` passes to `fetchAllOrders`. -/
structure FetchParams where
  page : Nat
  limit : Nat
  status : Option String
  paymentStatus : Option String
  phone : Option String
  sortBy : String
  order : String
  includeCancelled : Bool
deriving DecidableEq

/-- A successful orders-list response, after transformation. -/
structure FetchPage where
  orders : List Order
  totalCount : Nat
  totalPages : Nat
  currentPage : Nat
deriving DecidableEq

/-- The backend as seen through `fetchAllOrders`: a response (or thrown
error) for every parameter set. -/
def FetchEnv : Type := FetchParams → Except JsError FetchPage

/-- Observable events of a management-workflow run, in program order. -/
inductive MEvent where
  | fetchOrders (params : FetchParams)
  | markUpdating (orderId : Nat)
  | optimisticStatus (orderId : Nat) (backendStatus : String)
  | callStatusEndpoint (orderId : Nat) (status : String) (changedBy : String)
  | showToast (title description : String)
  | clearUpdating (orderId : Nat)
deriving DecidableEq

/-- The parameters `loadOrders` builds for a given page: fixed limit 10,
filters dropped when set to "all", the trimmed search term dropped when
blank, fixed sort by order date descending, cancelled orders included. -/
def fetchParamsFor (s : MgmtState) (page : Nat) : FetchParams :=
  { page := page
    limit := 10
    status := if s.statusFilter ≠ "all" then some s.statusFilter else none
    paymentStatus := if s.paymentFilter ≠ "all" then some s.paymentFilter else none
    phone := if jsTrim s.searchTerm = "" then none else some (jsTrim s.searchTerm)
    sortBy := "order_date"
    order := "desc"
    includeCancelled := true }

/-- The `setLoading(true); setError(null)` prologue of `loadOrders`. -/
def loadStart (s : MgmtState) : MgmtState :=
  { s with loading := true, error := none }

/-- The message `loadOrders` stores on a failed fetch:
`err instanceof Error ? err.message : "Failed to load orders"`. -/
def loadErrorMessage : JsError → String
  | .errObj m => m
  | .nonError => "Failed to load orders"

/-- The body of `loadOrders` when the empty-page fallback cannot fire.
This is exactly the recursive call `loadOrders(1)` performs: at page 1
the fallback condition `page > 1` is false, so the inner run never
recurses further. -/
def loadOrdersInner (env : FetchEnv) (s : MgmtState) (page : Nat) :
    MgmtState × List MEvent :=
  let s0 := loadStart s
  let params := fetchParamsFor s0 page
  match env params with
  | .error e =>
    ({ s0 with error := some (loadErrorMessage e), loading := false },
     [.fetchOrders params,
      .showToast "Loading Failed" "Failed to load orders. Please try again."])
  | .ok resp =>
    ({ s0 with
        orders := resp.orders
        totalCount := resp.totalCount
        totalPages := resp.totalPages
        currentPage := resp.currentPage
        loading := false },
     [.fetchOrders params])

/-- `loadOrders` from the order management table: fetch the requested
page; on failure store the message and toast; when a page beyond the
first comes back empty, reset the current page to 1 and re-run for page
1 (whose own fallback is unreachable); otherwise install the response
into the state.  The loading flag is true during the run and false at
the end of every branch. -/
def loadOrders (env : FetchEnv) (s : MgmtState) (page : Nat) :
    MgmtState × List MEvent :=
  let s0 := loadStart s
  let params := fetchParamsFor s0 page
  match env params with
  | .error e =>
    ({ s0 with error := some (loadErrorMessage e), loading := false },
     [.fetchOrders params,
      .showToast "Loading Failed" "Failed to load orders. Please try again."])
  | .ok resp =>
    if resp.orders.length = 0 ∧ 1 < page then
      let s1 := { s0 with currentPage := 1 }
      let inner := loadOrdersInner env s1 1
      ({ inner.1 with loading := false }, .fetchOrders params :: inner.2)
    else
      ({ s0 with
          orders := resp.orders
          totalCount := resp.totalCount
          totalPages := resp.totalPages
          currentPage := resp.currentPage
          loading := false },
       [.fetchOrders params])

/-- `mapFrontendToBackendStatus` from the management table. -/
def mapFrontendToBackendStatus (st : String) : String :=
  if st = "completed" then "delivered" else st

/-- `mapBackendToFrontendStatus` from the management table. -/
def mapBackendToFrontendStatus (st : String) : String :=
  if st = "delivered" then "completed" else st

/-- JavaScript `s.charAt(0).toUpperCase() + s.slice(1)`. -/
def capitalizeJs (s : String) : String :=
  match s.toList with
  | [] => ""
  | c :: rest => String.mk (c.toUpper :: rest)

/-- The state right after the two leading `setState` calls of
`handleStatusUpdate`: the order id is in the updating set and the
order's status is optimistically rewritten in the local list. -/
def statusOptimistic (s : MgmtState) (orderId : Nat) (newStatus : String) :
    MgmtState :=
  let s1 := { s with updatingOrders := setAdd s.updatingOrders orderId }
  { s1 with
    orders := s1.orders.map (fun o =>
      if o.id = orderId then
        { o with orderStatus := mapFrontendToBackendStatus newStatus }
      else o) }

/-- `handleStatusUpdate` from the order management table, as a function
of the fetch environment and the outcome of the status-update endpoint
call: mark the order updating, rewrite its status locally, call the
endpoint, then — on success and on failure alike — re-fetch the current
page via `loadOrders` and finally remove the updating marker. -/
def handleStatusUpdate (env : FetchEnv) (updRes : Except JsError Unit)
    (s : MgmtState) (orderId : Nat) (newStatus : String) :
    MgmtState × List MEvent :=
  let s2 := statusOptimistic s orderId newStatus
  let backendStatus := mapFrontendToBackendStatus newStatus
  let lead := [MEvent.markUpdating orderId,
               MEvent.optimisticStatus orderId backendStatus,
               MEvent.callStatusEndpoint orderId backendStatus "admin"]
  match updRes with
  | .ok _ =>
    let rec1 := loadOrders env s2 s2.currentPage
    let s4 := { rec1.1 with updatingOrders := setDelete rec1.1.updatingOrders orderId }
    (s4, lead ++ rec1.2 ++
      [.showToast "Status Updated"
        ("Order status updated to " ++ capitalizeJs newStatus),
       .clearUpdating orderId])
  | .error _ =>
    let rec1 := loadOrders env s2 s2.currentPage
    let s4 := { rec1.1 with updatingOrders := setDelete rec1.1.updatingOrders orderId }
    (s4, lead ++ rec1.2 ++
      [.showToast "Update Failed" "Failed to update order status. Please try again.",
       .clearUpdating orderId])

/-- The per-row updating marker read at render time:
`updatingOrders.has(order.id)`. -/
def isUpdatingOrder (s : MgmtState) (o : Order) : Bool :=
  s.updatingOrders.contains o.id

/-- The `disabled` expression of the five order-status buttons:
`isUpdating || order.orderStatus === "cancelled" || order.orderStatus
=== "delivered"`. -/
def orderStatusButtonDisabled (s : MgmtState) (o : Order) : Bool :=
  isUpdatingOrder s o || o.orderStatus == "cancelled" || o.orderStatus == "delivered"

/-- The `disabled` expression of each of the three payment-status
buttons: `isUpdating` alone. -/
def paymentButtonDisabled (s : MgmtState) (o : Order) : Bool :=
  isUpdatingOrder s o

/-- The pages requested across a run, in order. -/
def requestedPages (evs : List MEvent) : List Nat :=
  evs.filterMap (fun e =>
    match e with
    | .fetchOrders p => some p.page
    | _ => none)

/-- A concrete order in a terminal state. -/
def deliveredOrder : Order :=
  { demoOrder with id := 7, orderStatus := "delivered" }

/-- A concrete non-terminal order. -/
def pendingOrder : Order :=
  { demoOrder with id := 9, orderStatus := "pending" }

/-- A concrete management state showing one delivered order, with no
update in flight. -/
def c4State : MgmtState :=
  { orders := [deliveredOrder]
    loading := false
    error := none
    searchTerm := ""
    statusFilter := "all"
    paymentFilter := "all"
    currentPage := 1
    totalPages := 1
    totalCount := 1
    updatingOrders := [] }

/-- A concrete management state on page 3 of an unfiltered list. -/
def page3State : MgmtState :=
  { orders := [pendingOrder]
    loading := false
    error := none
    searchTerm := ""
    statusFilter := "all"
    paymentFilter := "all"
    currentPage := 3
    totalPages := 3
    totalCount := 25
    updatingOrders := [] }

/-- A concrete fetch environment whose page 3 is empty and whose page 1
holds one order. -/
def emptyPage3Env : FetchEnv := fun p =>
  if p.page = 3 then Except.ok ⟨[], 25, 3, 3⟩
  else Except.ok ⟨[pendingOrder], 25, 3, 1⟩

/-- A concrete environment whose every page reports the delivered order:
the authoritative backend state after a transition. -/
def deliveredEnv : FetchEnv := fun _ => Except.ok ⟨[deliveredOrder], 1, 1, 1⟩

/-! ### The order-placement API call (claim C10) -/

/-- A parsed HTTP response to the availability test endpoint: the `ok`
flag and the `message` field of the JSON body. -/
structure HttpResp where
  ok : Bool
  message : Option String
deriving DecidableEq

/-- The environment of `checkItemsAvailability`: what its GET and POST
probes of the test endpoint produce (`error` models a rejected fetch). -/
structure AvailEnv where
  getResult : Except JsError HttpResp
  postResult : Except JsError HttpResp

/-- A network request issued by the order-placement path. -/
inductive ApiCall where
  | menuTestGet
  | menuTestPost (itemIds : List (Option Int))
  | ordersPost (payload : OrderSubmission)
deriving DecidableEq

/-- The response envelope of the order-creation endpoint. -/
structure OrderEnvelope where
  success : Bool
  message : Option String
  data : BackendOrder
deriving DecidableEq

/-- A parsed HTTP response of the order-creation endpoint: HTTP `ok`
flag and status, the error body's `message` when not ok, and the parsed
envelope when ok. -/
structure OrdersPostResp where
  ok : Bool
  status : Nat
  errMessage : Option String
  envelope : OrderEnvelope
deriving DecidableEq

/-- `checkItemsAvailability` from the order API client: GET the test
endpoint (status logged, not checked), POST the item ids to it, throw
the body message (or a fallback) when the POST is not ok, and otherwise
report availability as true; any thrown error is re-thrown.  The second
component lists the requests issued. -/
def checkItemsAvailability (env : AvailEnv) (itemIds : List (Option Int)) :
    Except JsError Bool × List ApiCall :=
  match env.getResult with
  | .error e => (.error e, [.menuTestGet])
  | .ok _ =>
    match env.postResult with
    | .error e => (.error e, [.menuTestGet, .menuTestPost itemIds])
    | .ok resp =>
      if !resp.ok then
        (.error (.errObj (jsOrOptString resp.message "Failed to check item availability")),
         [.menuTestGet, .menuTestPost itemIds])
      else
        (.ok true, [.menuTestGet, .menuTestPost itemIds])

/-- `placeOrder` from the order API client: run the availability
pre-check first and replace any of its failures by the fixed
not-available message without touching the order endpoint; otherwise
POST the submission and unwrap the envelope, throwing the body message
(or an HTTP-status fallback) on a non-ok response and the envelope
message (or a fallback) on a non-success envelope. -/
def placeOrder (availEnv : AvailEnv) (postEnv : Except JsError OrdersPostResp)
    (orderData : OrderSubmission) : Except JsError Order × List ApiCall :=
  let itemIds := orderData.items.map SubmissionItem.menuItemId
  let check := checkItemsAvailability availEnv itemIds
  match check.1 with
  | .error _ =>
    (.error (.errObj "Some menu items are not available. Please refresh your cart and try again."),
     check.2)
  | .ok _ =>
    match postEnv with
    | .error e => (.error e, check.2 ++ [.ordersPost orderData])
    | .ok resp =>
      if !resp.ok then
        (.error (.errObj (jsOrOptString resp.errMessage
            ("HTTP error! status: " ++ jsNatToString resp.status))),
         check.2 ++ [.ordersPost orderData])
      else if !resp.envelope.success then
        (.error (.errObj (jsOrOptString resp.envelope.message "Failed to place order")),
         check.2 ++ [.ordersPost orderData])
      else
        (.ok (transformOrder resp.envelope.data), check.2 ++ [.ordersPost orderData])

/-- An availability environment whose GET probe itself fails at the
network level. -/
def failingAvailEnv : AvailEnv :=
  ⟨Except.error (JsError.errObj "network down"), Except.ok ⟨true, none⟩⟩

theorem natDigitsAux_ne_nil (fuel n : Nat) : natDigitsAux (fuel + 1) n ≠ [] := by
  unfold natDigitsAux
  split
  · simp
  · simp

theorem jsNatToString_ne_empty (n : Nat) : jsNatToString n ≠ "" := by
  unfold jsNatToString
  intro h
  have h2 : natDigitsAux (n + 1) n = [] := by
    have := congrArg String.toList h
    simpa using this
  exact natDigitsAux_ne_nil n n h2

/-- Claim C8: for every string s, the phone validator accepts s (returns
no error) if and only if s is empty or whitespace-only, or the string
obtained by deleting every non-digit character from s has length between
10 and 15 inclusive; when it rejects, it returns a too-short message for
fewer than 10 digits and a too-long message for more than 15. -/
theorem phone_validator_characterisation (s : String) :
    (validatePhoneNumber s = none ↔
      (jsTrim s = "" ∨ (10 ≤ (digitsOnly s).length ∧ (digitsOnly s).length ≤ 15))) ∧
    (jsTrim s ≠ "" → (digitsOnly s).length < 10 →
      validatePhoneNumber s = some "Phone number must be at least 10 digits") ∧
    (jsTrim s ≠ "" → 15 < (digitsOnly s).length →
      validatePhoneNumber s = some "Phone number cannot exceed 15 digits") := by
  unfold validatePhoneNumber
  refine ⟨?_, ?_, ?_⟩
  · constructor
    · intro h
      by_cases h0 : jsTrim s = ""
      · exact Or.inl h0
      · right
        simp only [h0, if_false, if_neg] at h
        split at h
        · exact absurd h (by simp)
        · split at h
          · exact absurd h (by simp)
          · omega
    · intro h
      rcases h with h | ⟨h1, h2⟩
      · simp [h]
      · by_cases h0 : jsTrim s = ""
        · simp [h0]
        · simp only [h0, if_false]
          have hlt : ¬ (digitsOnly s).length < 10 := by omega
          have hgt : ¬ (digitsOnly s).length > 15 := by omega
          simp [hlt, hgt]
  · intro h0 hlt
    simp [h0, hlt]
  · intro h0 hgt
    have hlt : ¬ (digitsOnly s).length < 10 := by omega
    simp [h0, hlt, hgt]

/-- Concrete instances of the phone-validator characterisation:
"123-456-7890" has 10 digits and is accepted, "12345" is rejected as too
short, and the blank string is accepted. -/
theorem phone_validator_characterisation_witness :
    validatePhoneNumber "123-456-7890" = none ∧
    validatePhoneNumber "12345" = some "Phone number must be at least 10 digits" ∧
    validatePhoneNumber "" = none := by
  refine ⟨?_, ?_, ?_⟩
  · exact (phone_validator_characterisation "123-456-7890").1.mpr (Or.inr (by decide))
  · exact (phone_validator_characterisation "12345").2.1 (by decide) (by decide)
  · exact (phone_validator_characterisation "").1.mpr (Or.inl (by decide))

/-- Claim C9: for every backend order record, transforming it to the
client view model reproduces the source total amount, order status, and
each item's subtotal unchanged — the mapping only renames fields and
never recomputes these values from the items.  The equalities hold for
every backend record, including records whose total is not the sum of
the item subtotals, which shows no recomputation takes place. -/
theorem transformOrder_preserves_amounts (b : BackendOrder) :
    (transformOrder b).totalAmount = b.total_amount ∧
    (transformOrder b).orderStatus = b.order_status ∧
    (transformOrder b).items.map OrderItem.subtotal
      = b.items.map BackendOrderItem.subtotal := by
  refine ⟨rfl, rfl, ?_⟩
  simp [transformOrder]

/-! ### Lemmas about the submit workflow -/

theorem validateForm_preserves_fields (s : ModalState) :
    (validateForm s).1.customerName = s.customerName ∧
    (validateForm s).1.phoneNumber = s.phoneNumber ∧
    (validateForm s).1.customerEmail = s.customerEmail ∧
    (validateForm s).1.generalInstructions = s.generalInstructions ∧
    (validateForm s).1.isSubmitting = s.isSubmitting ∧
    (validateForm s).1.showPopup = s.showPopup ∧
    (validateForm s).1.popupData = s.popupData := by
  unfold validateForm
  cases nameCheck s.customerName <;> simp

theorem validateForm_errors (s : ModalState) :
    (validateForm s).1.emailError = validateEmail s.customerEmail ∧
    (validateForm s).1.phoneError = validatePhoneNumber s.phoneNumber ∧
    (nameCheck s.customerName = none → (validateForm s).1.nameError = s.nameError) := by
  unfold validateForm
  cases h : nameCheck s.customerName <;> simp

theorem validateForm_passed (s : ModalState) (h : (validateForm s).2 = true) :
    nameCheck s.customerName = none ∧
    validateEmail s.customerEmail = none ∧
    validatePhoneNumber s.phoneNumber = none := by
  have h2 : ((nameCheck s.customerName).isNone &&
      (validateEmail s.customerEmail).isNone &&
      (validatePhoneNumber s.phoneNumber).isNone) = true := h
  simp only [Bool.and_eq_true, Option.isNone_iff_eq_none] at h2
  exact ⟨h2.1.1, h2.1.2, h2.2⟩

theorem buildOrderData_congr (s s' : ModalState) (cart : List CartItem)
    (h1 : s.customerName = s'.customerName) (h2 : s.phoneNumber = s'.phoneNumber)
    (h3 : s.customerEmail = s'.customerEmail)
    (h4 : s.generalInstructions = s'.generalInstructions) :
    buildOrderData s cart = buildOrderData s' cart := by
  unfold buildOrderData
  rw [h1, h2, h3, h4]

theorem handleSubmit_never_clears_cart (s : ModalState) (cart : List CartItem)
    (res : Except JsError Order) : (handleSubmit s cart res).cartCleared = false := by
  unfold handleSubmit
  rcases res with r | e <;> dsimp only <;> split <;> try rfl
  all_goals split <;> rfl

theorem handleSubmit_success (s : ModalState) (cart : List CartItem) (r : Order)
    (hval : (validateForm s).2 = true) (hcart : cart ≠ []) :
    handleSubmit s cart (Except.ok r) =
      { state :=
          { resetFormState
              { (validateForm s).1 with
                isSubmitting := true
                popupData := some ⟨jsNatToString r.id, r.totalAmount⟩
                showPopup := true } with isSubmitting := false }
        toasts := []
        request := some (buildOrderData { (validateForm s).1 with isSubmitting := true } cart)
        cartCleared := false
        closedModal := false } := by
  unfold handleSubmit
  have hlen : ¬ cart.length = 0 := by simpa using hcart
  dsimp only
  rw [hval]
  simp [hlen]

theorem handleSubmit_failure (s : ModalState) (cart : List CartItem) (e : JsError)
    (hval : (validateForm s).2 = true) (hcart : cart ≠ []) :
    handleSubmit s cart (Except.error e) =
      { state := { (validateForm s).1 with isSubmitting := false }
        toasts := [⟨"Order Failed", submitErrorMessage e⟩]
        request := some (buildOrderData { (validateForm s).1 with isSubmitting := true } cart)
        cartCleared := false
        closedModal := false } := by
  unfold handleSubmit
  have hlen : ¬ cart.length = 0 := by simpa using hcart
  dsimp only
  rw [hval]
  simp [hlen]

/-! ### Claim theorems for the submit workflow -/

/-- Claim C1: on a successful order-creation response, the submit
handler resets all form fields and validation errors and displays a
confirmation containing the returned order id and total amount, while
the cart is left unchanged; the cart is cleared only when the user
dismisses the success confirmation, and that dismissal
(`handlePopupClose`) is the only path in the submission workflow that
invokes the cart-clear capability. -/
theorem submit_success_resets_form_and_defers_cart_clear
    (s : ModalState) (cart : List CartItem) (r : Order)
    (hval : (validateForm s).2 = true) (hcart : cart ≠ []) :
    ((handleSubmit s cart (Except.ok r)).state.customerName = "" ∧
      (handleSubmit s cart (Except.ok r)).state.phoneNumber = "" ∧
      (handleSubmit s cart (Except.ok r)).state.customerEmail = "" ∧
      (handleSubmit s cart (Except.ok r)).state.generalInstructions = "" ∧
      (handleSubmit s cart (Except.ok r)).state.emailError = none ∧
      (handleSubmit s cart (Except.ok r)).state.phoneError = none ∧
      (handleSubmit s cart (Except.ok r)).state.nameError = none) ∧
    modalPopupView (handleSubmit s cart (Except.ok r)).state
      = some ⟨true, some (jsNatToString r.id), some r.totalAmount⟩ ∧
    (handleSubmit s cart (Except.ok r)).cartCleared = false ∧
    (handlePopupClose (handleSubmit s cart (Except.ok r)).state).cartCleared = true ∧
    (handlePopupClose (handleSubmit s cart (Except.ok r)).state).closedModal = true ∧
    (∀ s' cart' res', (handleSubmit s' cart' res').cartCleared = false) ∧
    (∀ s', (handleClose s').cartCleared = false) := by
  rw [handleSubmit_success s cart r hval hcart]
  refine ⟨⟨rfl, rfl, rfl, rfl, rfl, rfl, rfl⟩, ?_, rfl, rfl, rfl,
    handleSubmit_never_clears_cart, fun s' => rfl⟩
  simp only [modalPopupView, orderSuccessPopupView, resetFormState, truthyStr, truthyNum]
  have hne : (jsNatToString r.id != "") = true := by
    simp [bne_iff_ne, jsNatToString_ne_empty]
  simp [hne]

/-- Concrete run of the success path: order id 42 and total 150.5 are
shown in the confirmation, the fields are blank, and the cart survives
until the popup is dismissed. -/
theorem submit_success_resets_form_and_defers_cart_clear_witness :
    modalPopupView (handleSubmit
        ⟨"Ada Lovelace", "", "", "", false, none, none, none, false, none⟩
        [⟨JsId.str "7", "c1", "Masala Chai", 20, "", 2, none⟩]
        (Except.ok demoOrder)).state
      = some ⟨true, some "42", some (150.5 : Rat)⟩ ∧
    (handleSubmit
        ⟨"Ada Lovelace", "", "", "", false, none, none, none, false, none⟩
        [⟨JsId.str "7", "c1", "Masala Chai", 20, "", 2, none⟩]
        (Except.ok demoOrder)).cartCleared = false ∧
    (handlePopupClose (handleSubmit
        ⟨"Ada Lovelace", "", "", "", false, none, none, none, false, none⟩
        [⟨JsId.str "7", "c1", "Masala Chai", 20, "", 2, none⟩]
        (Except.ok demoOrder)).state).cartCleared = true := by
  have h := submit_success_resets_form_and_defers_cart_clear
    ⟨"Ada Lovelace", "", "", "", false, none, none, none, false, none⟩
    [⟨JsId.str "7", "c1", "Masala Chai", 20, "", 2, none⟩]
    demoOrder (by decide) (by decide)
  have e1 : jsNatToString demoOrder.id = "42" := by decide
  have e2 : demoOrder.totalAmount = (150.5 : Rat) := rfl
  exact ⟨by rw [← e1, ← e2]; exact h.2.1, h.2.2.1, h.2.2.2.1⟩

/-- Claim C6: the submit operation checks its preconditions in order: if
any field validator fails, it populates the field errors and returns
without issuing any network call; if the validators pass but the cart is
empty, it surfaces an empty-cart notification and returns without
calling the order-creation endpoint; only when both hold does it proceed
to construct and send the submission. -/
theorem submit_precondition_order (s : ModalState) (cart : List CartItem)
    (res : Except JsError Order) :
    ((validateForm s).2 = false →
      (handleSubmit s cart res).request = none ∧
      (handleSubmit s cart res).state = (validateForm s).1 ∧
      (handleSubmit s cart res).toasts
        = [⟨"Validation Error", "Please fix the errors below before submitting"⟩]) ∧
    ((validateForm s).2 = true → cart = [] →
      (handleSubmit s cart res).request = none ∧
      (handleSubmit s cart res).toasts
        = [⟨"Empty Cart", "Please add items to your cart before placing an order"⟩]) ∧
    ((validateForm s).2 = true → cart ≠ [] →
      (handleSubmit s cart res).request = some (buildOrderData s cart)) := by
  refine ⟨?_, ?_, ?_⟩
  · intro hval
    unfold handleSubmit
    dsimp only
    rw [hval]
    simp
  · intro hval hcart
    subst hcart
    unfold handleSubmit
    dsimp only
    rw [hval]
    simp
  · intro hval hcart
    have hb : buildOrderData { (validateForm s).1 with isSubmitting := true } cart
        = buildOrderData s cart := by
      have h := validateForm_preserves_fields s
      exact buildOrderData_congr _ _ cart h.1 h.2.1 h.2.2.1 h.2.2.2.1
    rcases res with e | r
    · rw [handleSubmit_failure s cart e hval hcart, hb]
    · rw [handleSubmit_success s cart r hval hcart, hb]

/-- Concrete runs of the three precondition branches: a one-character
name blocks the call, a valid form with an empty cart blocks the call
with the empty-cart toast, and a valid form with a non-empty cart sends
the payload. -/
theorem submit_precondition_order_witness :
    (handleSubmit ⟨"A", "", "", "", false, none, none, none, false, none⟩
        [⟨JsId.num 3, "c1", "Espresso", 90, "", 1, none⟩]
        (Except.error JsError.nonError)).request = none ∧
    (handleSubmit ⟨"Ada Lovelace", "", "", "", false, none, none, none, false, none⟩
        [] (Except.error JsError.nonError)).toasts
      = [⟨"Empty Cart", "Please add items to your cart before placing an order"⟩] ∧
    (handleSubmit ⟨"Ada Lovelace", "", "", "", false, none, none, none, false, none⟩
        [⟨JsId.num 3, "c1", "Espresso", 90, "", 1, none⟩]
        (Except.error JsError.nonError)).request
      = some (buildOrderData ⟨"Ada Lovelace", "", "", "", false, none, none, none, false, none⟩
          [⟨JsId.num 3, "c1", "Espresso", 90, "", 1, none⟩]) := by
  refine ⟨?_, ?_, ?_⟩
  · exact (submit_precondition_order
      ⟨"A", "", "", "", false, none, none, none, false, none⟩
      [⟨JsId.num 3, "c1", "Espresso", 90, "", 1, none⟩]
      (Except.error JsError.nonError)).1 (by decide) |>.1
  · exact ((submit_precondition_order
      ⟨"Ada Lovelace", "", "", "", false, none, none, none, false, none⟩
      [] (Except.error JsError.nonError)).2.1 (by decide) rfl).2
  · exact (submit_precondition_order
      ⟨"Ada Lovelace", "", "", "", false, none, none, none, false, none⟩
      [⟨JsId.num 3, "c1", "Espresso", 90, "", 1, none⟩]
      (Except.error JsError.nonError)).2.2 (by decide) (by decide)

/-- Claim C5: when order submission fails after the network call was
issued, the submit handler leaves all form fields and validation errors
unchanged (no reset), surfaces the server-provided error message
verbatim when one is available and a generic failure message otherwise,
except that an error whose message contains "not available" is replaced
by a targeted message instructing the user to refresh the cart; in every
outcome (success or failure) the submitting flag is cleared at the end.
The two error-state hypotheses are the live-validation invariant the
modal maintains on every keystroke. -/
theorem submit_failure_preserves_form (s : ModalState) (cart : List CartItem)
    (e : JsError)
    (hemail : s.emailError = validateEmail s.customerEmail)
    (hphone : s.phoneError = validatePhoneNumber s.phoneNumber)
    (hval : (validateForm s).2 = true) (hcart : cart ≠ []) :
    ((handleSubmit s cart (Except.error e)).state.customerName = s.customerName ∧
      (handleSubmit s cart (Except.error e)).state.phoneNumber = s.phoneNumber ∧
      (handleSubmit s cart (Except.error e)).state.customerEmail = s.customerEmail ∧
      (handleSubmit s cart (Except.error e)).state.generalInstructions
        = s.generalInstructions ∧
      (handleSubmit s cart (Except.error e)).state.emailError = s.emailError ∧
      (handleSubmit s cart (Except.error e)).state.phoneError = s.phoneError ∧
      (handleSubmit s cart (Except.error e)).state.nameError = s.nameError) ∧
    (handleSubmit s cart (Except.error e)).toasts
      = [⟨"Order Failed", submitErrorMessage e⟩] ∧
    (∀ m, e = JsError.errObj m → jsIncludes m "not available" = false →
      submitErrorMessage e = m) ∧
    (∀ m, e = JsError.errObj m → jsIncludes m "not available" = true →
      submitErrorMessage e
        = "Some items in your cart are no longer available. Please refresh your cart and try again.") ∧
    (e = JsError.nonError →
      submitErrorMessage e = "Failed to place order. Please try again.") ∧
    (handleSubmit s cart (Except.error e)).state.isSubmitting = false ∧
    (∀ r : Order, (handleSubmit s cart (Except.ok r)).state.isSubmitting = false) := by
  have hpass := validateForm_passed s hval
  have hfields := validateForm_preserves_fields s
  have herrs := validateForm_errors s
  rw [handleSubmit_failure s cart e hval hcart]
  refine ⟨⟨hfields.1, hfields.2.1, hfields.2.2.1, hfields.2.2.2.1, ?_, ?_, ?_⟩,
    rfl, ?_, ?_, ?_, rfl, ?_⟩
  · rw [show ({ (validateForm s).1 with isSubmitting := false } : ModalState).emailError
        = (validateForm s).1.emailError from rfl, herrs.1, ← hemail]
  · rw [show ({ (validateForm s).1 with isSubmitting := false } : ModalState).phoneError
        = (validateForm s).1.phoneError from rfl, herrs.2.1, ← hphone]
  · rw [show ({ (validateForm s).1 with isSubmitting := false } : ModalState).nameError
        = (validateForm s).1.nameError from rfl, herrs.2.2 hpass.1]
  · intro m hm hnot
    subst hm
    simp [submitErrorMessage, hnot]
  · intro m hm hhit
    subst hm
    simp [submitErrorMessage, hhit]
  · intro hm
    subst hm
    rfl
  · intro r
    rw [handleSubmit_success s cart r hval hcart]

/-- Concrete runs of the failure path: a server message without "not
available" is surfaced verbatim, one containing "not available" is
remapped to the refresh-your-cart message, and the form fields survive
both. -/
theorem submit_failure_preserves_form_witness :
    (handleSubmit ⟨"Ada Lovelace", "", "", "", false, none, none, none, false, none⟩
        [⟨JsId.num 3, "c1", "Espresso", 90, "", 1, none⟩]
        (Except.error (JsError.errObj "Kitchen closed"))).toasts
      = [⟨"Order Failed", "Kitchen closed"⟩] ∧
    (handleSubmit ⟨"Ada Lovelace", "", "", "", false, none, none, none, false, none⟩
        [⟨JsId.num 3, "c1", "Espresso", 90, "", 1, none⟩]
        (Except.error (JsError.errObj "Items are not available right now"))).toasts
      = [⟨"Order Failed",
          "Some items in your cart are no longer available. Please refresh your cart and try again."⟩] ∧
    (handleSubmit ⟨"Ada Lovelace", "", "", "", false, none, none, none, false, none⟩
        [⟨JsId.num 3, "c1", "Espresso", 90, "", 1, none⟩]
        (Except.error (JsError.errObj "Kitchen closed"))).state.customerName
      = "Ada Lovelace" := by
  have h1 := submit_failure_preserves_form
    ⟨"Ada Lovelace", "", "", "", false, none, none, none, false, none⟩
    [⟨JsId.num 3, "c1", "Espresso", 90, "", 1, none⟩]
    (JsError.errObj "Kitchen closed") (by decide) (by decide) (by decide) (by decide)
  have h2 := submit_failure_preserves_form
    ⟨"Ada Lovelace", "", "", "", false, none, none, none, false, none⟩
    [⟨JsId.num 3, "c1", "Espresso", 90, "", 1, none⟩]
    (JsError.errObj "Items are not available right now") (by decide) (by decide)
    (by decide) (by decide)
  refine ⟨?_, ?_, h1.1.1⟩
  · rw [h1.2.1, h1.2.2.1 "Kitchen closed" rfl (by decide)]
  · rw [h2.2.1,
      h2.2.2.2.1 "Items are not available right now" rfl (by decide)]

theorem isDigit_not_whitespace (c : Char) (h : c.isDigit = true) :
    c.isWhitespace = false := by
  by_contra hw
  rw [Bool.not_eq_false] at hw
  simp only [Char.isWhitespace, Bool.or_eq_true, decide_eq_true_eq] at hw
  rcases hw with ((h1 | h1) | h1) | h1 <;> subst h1 <;> exact absurd h (by decide)

theorem dropWhile_ws_of_all_digits (l : List Char) (h : l.all Char.isDigit = true) :
    l.dropWhile Char.isWhitespace = l := by
  cases l with
  | nil => rfl
  | cons c t =>
    simp only [List.all_cons, Bool.and_eq_true] at h
    simp [List.dropWhile_cons, isDigit_not_whitespace c h.1]

theorem takeWhile_digits_of_all (l : List Char) (h : l.all Char.isDigit = true) :
    l.takeWhile Char.isDigit = l := by
  induction l with
  | nil => rfl
  | cons c t ih =>
    simp only [List.all_cons, Bool.and_eq_true] at h
    simp [List.takeWhile_cons, h.1, ih h.2]

/-- On a non-empty all-digit string, `jsParseInt` returns the base-10
value of the digits. -/
theorem jsParseInt_of_digits (s : String) (hne : s.toList ≠ [])
    (hd : s.toList.all Char.isDigit = true) :
    jsParseInt s = some (decimalValue s.toList : Int) := by
  unfold jsParseInt
  rw [dropWhile_ws_of_all_digits s.toList hd]
  cases hl : s.toList with
  | nil => exact absurd hl hne
  | cons c t =>
    rw [hl] at hd
    simp only [List.all_cons, Bool.and_eq_true] at hd
    have hcm : c ≠ '-' := by intro hc; subst hc; exact absurd hd.1 (by decide)
    have hcp : c ≠ '+' := by intro hc; subst hc; exact absurd hd.1 (by decide)
    simp only [hcm, if_false, hcp, if_neg]
    unfold parseDigits
    rw [takeWhile_digits_of_all (c :: t) (by simp [List.all_cons, hd.1, hd.2])]
    simp [decimalValue]

/-- Counterexample to claim C3 as stated: at a validated form state with
a blank general-instructions field and a non-empty cart, the constructed
submission carries `some ""` for the order-level instructions (an
explicit empty string, not an omitted field), carries `some ""` for the
cart line with no note, and passes the other line's note through
untrimmed. -/
theorem submission_empty_string_counterexample :
    (validateForm c3State).2 = true ∧
    c3State.generalInstructions = "" ∧
    ((handleSubmit c3State c3Cart (Except.error JsError.nonError)).request.map
        OrderSubmission.specialInstructions) = some (some "") ∧
    ((handleSubmit c3State c3Cart (Except.error JsError.nonError)).request.map
        OrderSubmission.specialInstructions) ≠ some none ∧
    ((handleSubmit c3State c3Cart (Except.error JsError.nonError)).request.map
        (fun p => p.items.map SubmissionItem.specialInstructions))
      = some [some "", some " extra hot "] := by
  refine ⟨by decide, rfl, ?_, ?_, ?_⟩ <;> decide

/-- Claim C3 as amended: for every validated form state and non-empty
cart, the submission sent at submit time trims the four form text
fields, sends the literal "Not provided" for a blank phone or email, and
coerces numeric and numeric-string catalog identifiers to numbers; the
optional instruction fields, however, are transmitted as explicit
strings — the blank order-level field and absent per-item notes become
empty strings rather than omitted fields, and per-item notes are passed
through without trimming. -/
theorem submission_payload_construction (s : ModalState) (cart : List CartItem)
    (res : Except JsError Order)
    (hval : (validateForm s).2 = true) (hcart : cart ≠ []) :
    (handleSubmit s cart res).request = some (buildOrderData s cart) ∧
    (buildOrderData s cart).customerName = jsTrim s.customerName ∧
    (jsTrim s.phoneNumber = "" →
      (buildOrderData s cart).customerPhone = "Not provided") ∧
    (jsTrim s.phoneNumber ≠ "" →
      (buildOrderData s cart).customerPhone = jsTrim s.phoneNumber) ∧
    (jsTrim s.customerEmail = "" →
      (buildOrderData s cart).customerEmail = some "Not provided") ∧
    (jsTrim s.customerEmail ≠ "" →
      (buildOrderData s cart).customerEmail = some (jsTrim s.customerEmail)) ∧
    (jsTrim s.generalInstructions = "" →
      (buildOrderData s cart).specialInstructions = some "") ∧
    (jsTrim s.generalInstructions ≠ "" →
      (buildOrderData s cart).specialInstructions
        = some (jsTrim s.generalInstructions)) ∧
    (buildOrderData s cart).items.map SubmissionItem.quantity
      = cart.map CartItem.quantity ∧
    (buildOrderData s cart).items.map SubmissionItem.specialInstructions
      = cart.map (fun i => some (jsOrOptString i.specialInstructions "")) ∧
    (buildOrderData s cart).items.map SubmissionItem.menuItemId
      = cart.map (fun i => coerceMenuItemId i.id) ∧
    (∀ n : Int, coerceMenuItemId (JsId.num n) = some n) ∧
    (∀ str : String, str.toList ≠ [] → str.toList.all Char.isDigit = true →
      coerceMenuItemId (JsId.str str) = some (decimalValue str.toList : Int)) := by
  have hreq : (handleSubmit s cart res).request = some (buildOrderData s cart) := by
    have hb : buildOrderData { (validateForm s).1 with isSubmitting := true } cart
        = buildOrderData s cart := by
      have h := validateForm_preserves_fields s
      exact buildOrderData_congr _ _ cart h.1 h.2.1 h.2.2.1 h.2.2.2.1
    rcases res with e | r
    · rw [handleSubmit_failure s cart e hval hcart, hb]
    · rw [handleSubmit_success s cart r hval hcart, hb]
  refine ⟨hreq, rfl, ?_, ?_, ?_, ?_, ?_, ?_, ?_, ?_, ?_, fun n => rfl, ?_⟩
  · intro h; simp [buildOrderData, jsOrString, h]
  · intro h; simp [buildOrderData, jsOrString, h]
  · intro h; simp [buildOrderData, jsOrString, h]
  · intro h; simp [buildOrderData, jsOrString, h]
  · intro h; simp [buildOrderData, jsOrString, h]
  · intro h; simp [buildOrderData, jsOrString, h]
  · simp [buildOrderData]
  · simp [buildOrderData]
  · simp [buildOrderData]
  · intro str hne hd
    exact jsParseInt_of_digits str hne hd

/-- Concrete run of the amended payload construction: blank phone and
email become "Not provided", the name is trimmed, and the
numeric-string catalog id "7" is sent as the number 7. -/
theorem submission_payload_construction_witness :
    (handleSubmit c3State c3Cart (Except.error JsError.nonError)).request
      = some (buildOrderData c3State c3Cart) ∧
    (buildOrderData c3State c3Cart).customerPhone = "Not provided" ∧
    (buildOrderData c3State c3Cart).customerEmail = some "Not provided" ∧
    coerceMenuItemId (JsId.str "7") = some 7 := by
  have h := submission_payload_construction c3State c3Cart
    (Except.error JsError.nonError) (by decide) (by decide)
  refine ⟨h.1, h.2.2.1 (by decide), h.2.2.2.2.1 (by decide), ?_⟩
  have h7 := h.2.2.2.2.2.2.2.2.2.2.2.2 "7" (by decide) (by decide)
  rw [h7]
  decide

/-- `loadOrders` agrees with its unfolded inner body at page 1: the
fallback branch requires `1 < page`, so the recursion the code performs
at page 1 is faithfully replaced by `loadOrdersInner`. -/
theorem loadOrders_page_one (env : FetchEnv) (s : MgmtState) :
    loadOrders env s 1 = loadOrdersInner env s 1 := by
  unfold loadOrders loadOrdersInner
  simp only []
  cases h : env (fetchParamsFor (loadStart s) 1) with
  | error e => simp [h]
  | ok resp => simp [h]

/-! ### Lemmas about the management workflow -/

theorem setAdd_contains_self (l : List Nat) (x : Nat) :
    (setAdd l x).contains x = true := by
  by_cases h : x ∈ l
  · simp [setAdd, h]
  · simp [setAdd, h]

theorem setDelete_contains_self (l : List Nat) (x : Nat) :
    (setDelete l x).contains x = false := by
  simp [setDelete, List.mem_filter]

/-- The filter fields of the fetch parameters ignore the current page
and loading state, so resetting the page before the fallback fetch does
not change the filters sent. -/
theorem fetchParamsFor_filters_only (s : MgmtState) (page : Nat) :
    fetchParamsFor (loadStart { loadStart s with currentPage := 1 }) page
      = fetchParamsFor (loadStart s) page := rfl

theorem loadOrdersInner_error (env : FetchEnv) (st : MgmtState) (page : Nat)
    (e : JsError)
    (h : env (fetchParamsFor (loadStart st) page) = Except.error e) :
    loadOrdersInner env st page =
      ({ loadStart st with error := some (loadErrorMessage e), loading := false },
       [MEvent.fetchOrders (fetchParamsFor (loadStart st) page),
        MEvent.showToast "Loading Failed" "Failed to load orders. Please try again."]) := by
  unfold loadOrdersInner
  simp only []
  rw [h]

theorem loadOrdersInner_ok (env : FetchEnv) (st : MgmtState) (page : Nat)
    (resp : FetchPage)
    (h : env (fetchParamsFor (loadStart st) page) = Except.ok resp) :
    loadOrdersInner env st page =
      ({ loadStart st with
          orders := resp.orders
          totalCount := resp.totalCount
          totalPages := resp.totalPages
          currentPage := resp.currentPage
          loading := false },
       [MEvent.fetchOrders (fetchParamsFor (loadStart st) page)]) := by
  unfold loadOrdersInner
  simp only []
  rw [h]

theorem loadOrdersInner_requests (env : FetchEnv) (st : MgmtState) (page : Nat) :
    requestedPages (loadOrdersInner env st page).2 = [page] := by
  cases h : env (fetchParamsFor (loadStart st) page) with
  | error e => rw [loadOrdersInner_error env st page e h]; rfl
  | ok resp => rw [loadOrdersInner_ok env st page resp h]; rfl

theorem loadOrders_fallback (env : FetchEnv) (s : MgmtState) (N : Nat)
    (respN : FetchPage)
    (hN : env (fetchParamsFor (loadStart s) N) = Except.ok respN)
    (hempty : respN.orders = []) (h1N : 1 < N) :
    loadOrders env s N =
      ({ (loadOrdersInner env { loadStart s with currentPage := 1 } 1).1 with
          loading := false },
       MEvent.fetchOrders (fetchParamsFor (loadStart s) N)
         :: (loadOrdersInner env { loadStart s with currentPage := 1 } 1).2) := by
  unfold loadOrders
  simp only []
  cases h : env (fetchParamsFor (loadStart s) N) with
  | error e =>
    rw [h] at hN
    cases hN
  | ok resp =>
    rw [h] at hN
    injection hN with h2
    subst h2
    dsimp only
    rw [if_pos ⟨List.length_eq_zero.mpr hempty, h1N⟩]
    try rfl

theorem loadOrders_ok_nonempty (env : FetchEnv) (s : MgmtState) (page : Nat)
    (resp : FetchPage)
    (h : env (fetchParamsFor (loadStart s) page) = Except.ok resp)
    (hne : resp.orders ≠ []) :
    loadOrders env s page =
      ({ loadStart s with
          orders := resp.orders
          totalCount := resp.totalCount
          totalPages := resp.totalPages
          currentPage := resp.currentPage
          loading := false },
       [MEvent.fetchOrders (fetchParamsFor (loadStart s) page)]) := by
  unfold loadOrders
  simp only []
  cases hc : env (fetchParamsFor (loadStart s) page) with
  | error e =>
    rw [hc] at h
    cases h
  | ok resp2 =>
    rw [hc] at h
    injection h with h2
    subst h2
    dsimp only
    rw [if_neg (fun hx => hne (List.length_eq_zero.mp hx.1))]
    try rfl

/-! ### Claim theorems for the management workflow -/

/-- Claim C7: for every page number N greater than 1, if the order-list
fetch for page N returns zero rows, the workflow automatically
re-requests page 1 (resetting the current page to 1) instead of
displaying an empty page; a zero-row result on page 1 itself does not
trigger a re-request. -/
theorem pagination_empty_page_fallback :
    (∀ (env : FetchEnv) (s : MgmtState) (N : Nat) (respN : FetchPage),
      env (fetchParamsFor (loadStart s) N) = Except.ok respN →
      respN.orders = [] → 1 < N →
      requestedPages (loadOrders env s N).2 = [N, 1] ∧
      (∀ e, env (fetchParamsFor (loadStart s) 1) = Except.error e →
        (loadOrders env s N).1.currentPage = 1) ∧
      (∀ resp1 : FetchPage,
        env (fetchParamsFor (loadStart s) 1) = Except.ok resp1 →
        (loadOrders env s N).1.currentPage = resp1.currentPage ∧
        (loadOrders env s N).1.orders = resp1.orders)) ∧
    (∀ (env : FetchEnv) (s : MgmtState) (resp1 : FetchPage),
      env (fetchParamsFor (loadStart s) 1) = Except.ok resp1 →
      resp1.orders = [] →
      requestedPages (loadOrders env s 1).2 = [1]) := by
  constructor
  · intro env s N respN hN hempty h1N
    rw [loadOrders_fallback env s N respN hN hempty h1N]
    refine ⟨?_, ?_, ?_⟩
    · show requestedPages (MEvent.fetchOrders (fetchParamsFor (loadStart s) N)
          :: (loadOrdersInner env { loadStart s with currentPage := 1 } 1).2) = [N, 1]
      rw [show requestedPages (MEvent.fetchOrders (fetchParamsFor (loadStart s) N)
            :: (loadOrdersInner env { loadStart s with currentPage := 1 } 1).2)
          = N :: requestedPages
              (loadOrdersInner env { loadStart s with currentPage := 1 } 1).2 from rfl,
        loadOrdersInner_requests]
    · intro e h1
      rw [loadOrdersInner_error env { loadStart s with currentPage := 1 } 1 e h1]
      rfl
    · intro resp1 h1
      rw [loadOrdersInner_ok env { loadStart s with currentPage := 1 } 1 resp1 h1]
      exact ⟨rfl, rfl⟩
  · intro env s resp1 h1 hempty
    rw [loadOrders_page_one, loadOrdersInner_ok env s 1 resp1 h1]
    try rfl

/-- Concrete run of the pagination fallback: page 3 of a list that has
become empty triggers requests for pages 3 and then 1, and the state
lands on page 1; a blank page 1 is simply shown. -/
theorem pagination_empty_page_fallback_witness :
    requestedPages (loadOrders emptyPage3Env page3State 3).2 = [3, 1] ∧
    (loadOrders emptyPage3Env page3State 3).1.currentPage = 1 ∧
    requestedPages (loadOrders (fun _ => Except.ok ⟨[], 0, 0, 1⟩) page3State 1).2
      = [1] := by
  have h := pagination_empty_page_fallback
  have h3 := h.1 emptyPage3Env page3State 3 ⟨[], 25, 3, 3⟩ rfl rfl (by decide)
  refine ⟨h3.1, ?_, h.2 (fun _ => Except.ok ⟨[], 0, 0, 1⟩) page3State ⟨[], 0, 0, 1⟩ rfl rfl⟩
  exact (h3.2.2 ⟨[pendingOrder], 25, 3, 1⟩ rfl).1

/-- Claim C2: for every order not in a terminal state, invoking a status
transition first rewrites that order's status in the local list state
immediately (optimistic update) and adds the order to the updating set,
then calls the status-update endpoint, and then — on both endpoint
success and endpoint failure — re-fetches the current page so the
displayed list reflects the backend's authoritative status; the updating
marker for that order is removed after the reconciliation fetch in every
outcome. -/
theorem status_update_optimistic_then_reconciles
    (env : FetchEnv) (updRes : Except JsError Unit) (s : MgmtState)
    (o : Order) (newStatus : String)
    (ho : o ∈ s.orders)
    (hterm : o.orderStatus ≠ "delivered" ∧ o.orderStatus ≠ "cancelled") :
    (∀ o' ∈ (statusOptimistic s o.id newStatus).orders,
      o'.id = o.id → o'.orderStatus = mapFrontendToBackendStatus newStatus) ∧
    (statusOptimistic s o.id newStatus).updatingOrders.contains o.id = true ∧
    (∃ t d, (handleStatusUpdate env updRes s o.id newStatus).2
      = [MEvent.markUpdating o.id,
         MEvent.optimisticStatus o.id (mapFrontendToBackendStatus newStatus),
         MEvent.callStatusEndpoint o.id (mapFrontendToBackendStatus newStatus) "admin"]
        ++ (loadOrders env (statusOptimistic s o.id newStatus) s.currentPage).2
        ++ [MEvent.showToast t d, MEvent.clearUpdating o.id]) ∧
    (∀ resp : FetchPage,
      env (fetchParamsFor (loadStart (statusOptimistic s o.id newStatus))
            s.currentPage) = Except.ok resp →
      resp.orders ≠ [] →
      (handleStatusUpdate env updRes s o.id newStatus).1.orders = resp.orders) ∧
    (handleStatusUpdate env updRes s o.id newStatus).1.updatingOrders.contains o.id
      = false := by
  refine ⟨?_, ?_, ?_, ?_, ?_⟩
  · intro o' hmem hid
    simp only [statusOptimistic, List.mem_map] at hmem
    obtain ⟨x, hx, hfx⟩ := hmem
    by_cases hxid : x.id = o.id
    · rw [← hfx]
      simp [hxid]
    · rw [← hfx] at hid
      simp [hxid] at hid
  · exact setAdd_contains_self s.updatingOrders o.id
  · cases updRes with
    | ok u => exact ⟨"Status Updated",
        "Order status updated to " ++ capitalizeJs newStatus, rfl⟩
    | error e => exact ⟨"Update Failed",
        "Failed to update order status. Please try again.", rfl⟩
  · intro resp hresp hne
    have hload := loadOrders_ok_nonempty env (statusOptimistic s o.id newStatus)
      s.currentPage resp hresp hne
    cases updRes with
    | ok u =>
      show ({ (loadOrders env (statusOptimistic s o.id newStatus) s.currentPage).1
          with updatingOrders := _ } : MgmtState).orders = resp.orders
      rw [hload]
    | error e =>
      show ({ (loadOrders env (statusOptimistic s o.id newStatus) s.currentPage).1
          with updatingOrders := _ } : MgmtState).orders = resp.orders
      rw [hload]
  · cases updRes with
    | ok u => exact setDelete_contains_self _ o.id
    | error e => exact setDelete_contains_self _ o.id

/-- Concrete run of a status transition on a pending order with a
failing endpoint: the optimistic state shows the new status and the
marker, and after the reconciliation fetch the list shows the backend's
delivered order with the marker gone. -/
theorem status_update_optimistic_then_reconciles_witness :
    (statusOptimistic page3State pendingOrder.id "completed").updatingOrders.contains
      pendingOrder.id = true ∧
    (handleStatusUpdate deliveredEnv (Except.error JsError.nonError) page3State
        pendingOrder.id "completed").1.orders = [deliveredOrder] ∧
    (handleStatusUpdate deliveredEnv (Except.error JsError.nonError) page3State
        pendingOrder.id "completed").1.updatingOrders.contains pendingOrder.id
      = false := by
  have h := status_update_optimistic_then_reconciles deliveredEnv
    (Except.error JsError.nonError) page3State pendingOrder "completed"
    (List.mem_singleton.mpr rfl) (by constructor <;> decide)
  exact ⟨h.2.1, h.2.2.2.1 ⟨[deliveredOrder], 1, 1, 1⟩ rfl (by simp), h.2.2.2.2⟩

/-- Counterexample to claim C4 as stated: a delivered (terminal) order
with no update in flight has its order-status buttons disabled but its
payment-status buttons enabled — the payment controls are not gated on
the terminal state. -/
theorem terminal_payment_buttons_counterexample :
    deliveredOrder.orderStatus = "delivered" ∧
    isUpdatingOrder c4State deliveredOrder = false ∧
    orderStatusButtonDisabled c4State deliveredOrder = true ∧
    paymentButtonDisabled c4State deliveredOrder = false := by
  refine ⟨rfl, rfl, ?_, rfl⟩
  decide

/-- Claim C4 as amended: for every order in a terminal state (delivered
or cancelled) the order-status buttons are disabled; the payment-status
buttons are disabled exactly when the order is marked updating, so
payment transitions remain initiable on a terminal order that is not
updating. -/
theorem terminal_state_button_disabling (s : MgmtState) (o : Order)
    (h : o.orderStatus = "delivered" ∨ o.orderStatus = "cancelled") :
    orderStatusButtonDisabled s o = true ∧
    paymentButtonDisabled s o = isUpdatingOrder s o := by
  constructor
  · rcases h with h | h <;> simp [orderStatusButtonDisabled, h]
  · rfl

/-- Concrete instance of the amended button-disabling property at the
delivered order. -/
theorem terminal_state_button_disabling_witness :
    orderStatusButtonDisabled c4State deliveredOrder = true ∧
    paymentButtonDisabled c4State deliveredOrder
      = isUpdatingOrder c4State deliveredOrder :=
  terminal_state_button_disabling c4State deliveredOrder (Or.inl rfl)

theorem checkItemsAvailability_calls (env : AvailEnv) (ids : List (Option Int)) :
    (checkItemsAvailability env ids).2 = ApiCall.menuTestGet ::
      (match env.getResult with
       | .error _ => []
       | .ok _ => [ApiCall.menuTestPost ids]) := by
  unfold checkItemsAvailability
  cases env.getResult with
  | error e => rfl
  | ok r =>
    cases env.postResult with
    | error e => rfl
    | ok resp => cases hok : resp.ok <;> simp [hok]

/-- Claim C10: for every order submission, `placeOrder` first runs an
item-availability pre-check against a separate test endpoint, and if
that pre-check throws for any reason (including a network failure of the
probe itself), `placeOrder` throws the error "Some menu items are not
available. Please refresh your cart and try again." without ever issuing
the POST request to the order-creation endpoint. -/
theorem placeOrder_precheck_gate (availEnv : AvailEnv)
    (postEnv : Except JsError OrdersPostResp) (orderData : OrderSubmission) :
    (placeOrder availEnv postEnv orderData).2.head? = some ApiCall.menuTestGet ∧
    (∀ e, (checkItemsAvailability availEnv
        (orderData.items.map SubmissionItem.menuItemId)).1 = Except.error e →
      (placeOrder availEnv postEnv orderData).1 = Except.error (JsError.errObj
        "Some menu items are not available. Please refresh your cart and try again.") ∧
      (∀ p, ApiCall.ordersPost p ∉ (placeOrder availEnv postEnv orderData).2)) := by
  constructor
  · unfold placeOrder
    simp only []
    cases h : (checkItemsAvailability availEnv
        (orderData.items.map SubmissionItem.menuItemId)).1 with
    | error e =>
      rw [checkItemsAvailability_calls]
      cases availEnv.getResult <;> rfl
    | ok b =>
      cases postEnv with
      | error e2 =>
        rw [checkItemsAvailability_calls]
        cases availEnv.getResult <;> rfl
      | ok resp =>
        cases hok : resp.ok <;> cases hs : resp.envelope.success <;>
          (rw [checkItemsAvailability_calls]; cases availEnv.getResult <;> simp [hok, hs])
  · intro e he
    unfold placeOrder
    simp only []
    rw [he]
    refine ⟨rfl, ?_⟩
    intro p
    rw [checkItemsAvailability_calls]
    cases availEnv.getResult <;> simp

/-- Concrete run of the pre-check gate: with the GET probe failing at
the network level, the order is rejected with the fixed not-available
message and no request ever reaches the order-creation endpoint. -/
theorem placeOrder_precheck_gate_witness :
    (placeOrder failingAvailEnv (Except.error JsError.nonError)
        (buildOrderData c3State c3Cart)).1
      = Except.error (JsError.errObj
          "Some menu items are not available. Please refresh your cart and try again.") ∧
    (∀ p, ApiCall.ordersPost p ∉
      (placeOrder failingAvailEnv (Except.error JsError.nonError)
        (buildOrderData c3State c3Cart)).2) := by
  have h := (placeOrder_precheck_gate failingAvailEnv (Except.error JsError.nonError)
    (buildOrderData c3State c3Cart)).2 (JsError.errObj "network down") rfl
  exact ⟨h.1, h.2⟩

end Zish
